import Mathlib

/-!
Verification of the process supervision registry of `ux_manager.py`
(screenmirror repository).

The module keeps a process-wide dictionary `_processes : Dict[str, Popen]`
mapping labels to child-process handles and exposes five operations:
`start_instance`, `stop_instance`, `is_running`, `get_pid`, `stop_all`,
plus the helper `_resolve_binary`.

Shallow embedding choices:
* A `Popen` handle is modelled by `Proc`: its pid together with the
  OS-level behaviour the code can observe through it — `alive` is the
  result of `poll() is None` at the time of the call, `termExits`
  (resp. `killExits`) says whether `wait(timeout)` returns within the
  caller-supplied timeout after `terminate()` (resp. after `kill()`).
* The global dictionary is an association list `Registry` threaded
  explicitly through every operation; each operation returns its result
  together with the registry state after the call (read-only operations
  return the registry unchanged, exactly as the Python code never
  mutates the dictionary there).
* The OS environment seen by `_resolve_binary` and `Popen` is the
  structure `Env`: the file predicates `os.path.isfile` / `os.access(·,
  X_OK)`, `os.path.expanduser`, the `PATH` directory list used by
  `shutil.which`, and `spawn`, which maps an argument vector to the
  process the OS creates for it (`none` = OS spawn failure).
  `os.path.sep` is the POSIX separator `'/'`.
* Exceptions become `Except` values: `FileNotFoundError(candidate)` is
  `Except.error candidate` in the resolver, `RuntimeError`
  (already running) / `FileNotFoundError` / a spawn failure are
  `StartError`, and the uncaught `TimeoutExpired` that the second
  `proc.wait(timeout=timeout)` of `stop_instance` can raise is
  `StopError.timeoutExpired`.
* `start_instance` additionally records the processes actually created
  during the call, each with the exact argument vector it was spawned
  from, so that "no process is spawned" and "spawned with exactly this
  vector" are object-level statements.
-/

/-- A label: the caller-chosen string key of the registry. -/
abbrev Label := String

/-- Model of a `subprocess.Popen` handle: the pid and the behaviour the
registry can observe through it.  `alive` is `poll() is None`;
`termExits` / `killExits` say whether `wait(timeout)` returns within the
timeout after `terminate()` / after `kill()`. -/
structure Proc where
  pid : Nat
  alive : Bool
  termExits : Bool
  killExits : Bool
deriving Repr, DecidableEq

/-- The in-memory registry `_processes`: an association list from label
to process handle (a Python `dict` has unique keys; see `Registry.WF`). -/
abbrev Registry := List (Label × Proc)

/-- `_processes.get(label)` / `_processes[label]`: first entry with the
given key. -/
def Registry.get : Registry → Label → Option Proc
  | [], _ => none
  | (k, p) :: rest, l => if k = l then some p else Registry.get rest l

/-- `_processes[label] = proc`: replace the entry for the key if
present, otherwise append a fresh one. -/
def Registry.set : Registry → Label → Proc → Registry
  | [], l, p => [(l, p)]
  | (k, q) :: rest, l, p =>
    if k = l then (l, p) :: rest else (k, q) :: Registry.set rest l p

/-- `_processes.pop(label, None)`: drop the entries with the given key. -/
def Registry.pop : Registry → Label → Registry
  | [], _ => []
  | (k, q) :: rest, l =>
    if k = l then Registry.pop rest l else (k, q) :: Registry.pop rest l

/-- `list(_processes.keys())`. -/
def Registry.keys (r : Registry) : List Label := r.map Prod.fst

/-- Well-formedness of the embedding of a Python `dict`: keys are
pairwise distinct. -/
def Registry.WF (r : Registry) : Prop := r.keys.Nodup

instance (r : Registry) : Decidable r.WF := by
  unfold Registry.WF; infer_instance

/-- The OS environment: file-system predicates, `~` expansion, the
`PATH` directories searched by `shutil.which`, and process creation. -/
structure Env where
  isfile : String → Bool
  access_x : String → Bool
  expanduser : String → String
  pathDirs : List String
  spawn : List String → Option Proc

/-- Python's `str.strip()`: remove leading and trailing whitespace. -/
def py_strip (s : String) : String :=
  ⟨((s.data.dropWhile Char.isWhitespace).reverse.dropWhile Char.isWhitespace).reverse⟩

/-- `os.path.sep in s` on POSIX: does the string contain `'/'`. -/
def contains_sep (s : String) : Bool := s.data.contains '/'

/-- Modelled from the documented semantics of `shutil.which` (standard
library, not repository code) for a POSIX `PATH` search: the first
joined path `dir/cmd` over the `PATH` directories that is an existing
executable regular file, if any. -/
def which (env : Env) (cmd : String) : Option String :=
  (env.pathDirs.map (fun d => d ++ "/" ++ cmd)).find?
    (fun p => env.isfile p && env.access_x p)

/-- Lines 22–23 of `ux_manager.py`:
`candidate = (binary_path or "uxplay").strip()` followed by
`candidate = os.path.expanduser(candidate)`.  Python's `or` takes the
default exactly when `binary_path` is falsy (the empty string). -/
def normalize_candidate (env : Env) (binary_path : String) : String :=
  env.expanduser (py_strip (if binary_path = "" then "uxplay" else binary_path))

/-- Lines 26–36 of `ux_manager.py`: the decision rule applied to the
normalized candidate.  `Except.error c` stands for
`raise FileNotFoundError(c)`. -/
def resolve_candidate (env : Env) (candidate : String) : Except String String :=
  if contains_sep candidate then
    if env.isfile candidate && env.access_x candidate then .ok candidate
    else .error candidate
  else
    match which env candidate with
    | some resolved =>
      if env.isfile resolved && env.access_x resolved then .ok resolved
      else .error candidate
    | none => .error candidate

/-- `_resolve_binary` of `ux_manager.py` (lines 12–36): normalization
followed by the decision rule. -/
def resolve_binary (env : Env) (binary_path : String) : Except String String :=
  resolve_candidate env (normalize_candidate env binary_path)

/-- Typed failure modes of `start_instance`: the `RuntimeError` raised
at lines 59–61, the propagated `FileNotFoundError` of the resolver, and
an OS-level `Popen` failure. -/
inductive StartError where
  | alreadyRunning (label : Label) (pid : Nat)
  | notFound (candidate : String)
  | spawnFailure
deriving Repr, DecidableEq

deriving instance DecidableEq for Except

/-- Result of a `start_instance` call: the returned pid or the raised
error, the registry after the call, and the processes created during
the call, each paired with the exact argument vector passed to `Popen`. -/
structure StartResult where
  res : Except StartError Nat
  reg : Registry
  spawned : List (List String × Proc)
deriving Repr, DecidableEq

/-- Lines 63–86 of `start_instance`: resolve the binary, build `cmd`,
spawn, record the handle under the label, return the pid.  Reached only
after the already-running check. -/
def start_spawn (env : Env) (r : Registry) (label : Label)
    (binary_path airplay_name : String) (base_port : Nat)
    (extra_args : List String) : StartResult :=
  match resolve_binary env binary_path with
  | .error c => ⟨.error (.notFound c), r, []⟩
  | .ok resolved_binary =>
    let cmd := [resolved_binary, "-n", airplay_name, "-p",
                toString base_port, "-vsync", "no"] ++ extra_args
    match env.spawn cmd with
    | none => ⟨.error .spawnFailure, r, []⟩
    | some proc => ⟨.ok proc.pid, r.set label proc, [(cmd, proc)]⟩

/-- `start_instance` of `ux_manager.py` (lines 39–86): fail with the
already-running error when an entry for the label exists and its
process is still alive (`poll() is None`), otherwise resolve and spawn. -/
def start_instance (env : Env) (r : Registry) (label : Label)
    (binary_path airplay_name : String) (base_port : Nat)
    (extra_args : List String) : StartResult :=
  match r.get label with
  | some p =>
    if p.alive then ⟨.error (.alreadyRunning label p.pid), r, []⟩
    else start_spawn env r label binary_path airplay_name base_port extra_args
  | none => start_spawn env r label binary_path airplay_name base_port extra_args

/-- The exception `stop_instance` can propagate: the `TimeoutExpired`
of the second `proc.wait(timeout=timeout)` (line 112), which no handler
catches. -/
inductive StopError where
  | timeoutExpired
deriving Repr, DecidableEq

/-- `stop_instance` of `ux_manager.py` (lines 89–116).  The caller's
`timeout` is folded into `termExits` / `killExits` of the handle.  The
`try/finally` pops the entry on every path that enters the live branch,
including the one where the post-kill wait raises `TimeoutExpired`. -/
def stop_instance (r : Registry) (label : Label) :
    Except StopError Bool × Registry :=
  match r.get label with
  | none => (.ok false, r)
  | some proc =>
    if !proc.alive then (.ok false, r.pop label)
    else if proc.termExits then (.ok true, r.pop label)
    else if proc.killExits then (.ok true, r.pop label)
    else (.error .timeoutExpired, r.pop label)

/-- `is_running` of `ux_manager.py` (lines 119–126): a pure read; the
registry is returned unchanged because the code never mutates the
dictionary here. -/
def is_running (r : Registry) (label : Label) : Bool × Registry :=
  (match r.get label with
   | none => false
   | some proc => proc.alive, r)

/-- `get_pid` of `ux_manager.py` (lines 129–136): a pure read. -/
def get_pid (r : Registry) (label : Label) : Option Nat × Registry :=
  (match r.get label with
   | none => none
   | some proc => if proc.alive then some proc.pid else none, r)

/-- The loop of `stop_all` (lines 147–149) over the snapshotted label
list: an exception raised by `stop_instance` propagates and aborts the
remaining iterations (there is no handler in `stop_all`). -/
def stop_all_loop : List Label → Nat → Registry → Except StopError Nat × Registry
  | [], acc, r => (.ok acc, r)
  | l :: rest, acc, r =>
    match stop_instance r l with
    | (.ok true, r') => stop_all_loop rest (acc + 1) r'
    | (.ok false, r') => stop_all_loop rest acc r'
    | (.error e, r') => (.error e, r')

/-- `stop_all` of `ux_manager.py` (lines 139–150): snapshot
`list(_processes.keys())`, stop each label, count the `True` results. -/
def stop_all (r : Registry) : Except StopError Nat × Registry :=
  stop_all_loop r.keys 0 r

/-! ### Registry lemmas -/

theorem Registry.get_set_self (r : Registry) (l : Label) (p : Proc) :
    (r.set l p).get l = some p := by
  induction r with
  | nil => simp [Registry.set, Registry.get]
  | cons kv rest ih =>
    obtain ⟨k, q⟩ := kv
    by_cases hk : k = l <;> simp [Registry.set, Registry.get, hk, ih]

theorem Registry.get_set_ne (r : Registry) (l m : Label) (p : Proc) (h : m ≠ l) :
    (r.set l p).get m = r.get m := by
  induction r with
  | nil => simp [Registry.set, Registry.get, Ne.symm h]
  | cons kv rest ih =>
    obtain ⟨k, q⟩ := kv
    by_cases hk : k = l
    · subst hk
      simp [Registry.set, Registry.get, Ne.symm h]
    · simp [Registry.set, Registry.get, hk, ih]

theorem Registry.get_pop_self (r : Registry) (l : Label) :
    (r.pop l).get l = none := by
  induction r with
  | nil => simp [Registry.pop, Registry.get]
  | cons kv rest ih =>
    obtain ⟨k, q⟩ := kv
    by_cases hk : k = l <;> simp [Registry.pop, Registry.get, hk, ih]

theorem Registry.get_pop_ne (r : Registry) (l m : Label) (h : m ≠ l) :
    (r.pop l).get m = r.get m := by
  induction r with
  | nil => simp [Registry.pop, Registry.get]
  | cons kv rest ih =>
    obtain ⟨k, q⟩ := kv
    by_cases hk : k = l
    · subst hk
      simp [Registry.pop, Registry.get, Ne.symm h, ih]
    · simp [Registry.pop, Registry.get, hk, ih]

theorem Registry.pop_of_not_mem (r : Registry) (l : Label) (h : l ∉ r.keys) :
    r.pop l = r := by
  induction r with
  | nil => simp [Registry.pop]
  | cons kv rest ih =>
    obtain ⟨k, q⟩ := kv
    simp only [Registry.keys, List.map_cons, List.mem_cons, not_or] at h
    obtain ⟨h1, h2⟩ := h
    simp [Registry.pop, Ne.symm h1, ih (by simpa [Registry.keys] using h2)]

theorem Registry.WF_cons {k : Label} {q : Proc} {rest : Registry}
    (h : Registry.WF ((k, q) :: rest)) : k ∉ rest.keys ∧ rest.WF := by
  simpa [Registry.WF, Registry.keys] using h

/-- In a well-formed registry, after `set l p` with `p` alive, exactly one
entry has key `l` and a live process. -/
theorem Registry.countP_set_alive (r : Registry) (l : Label) (p : Proc)
    (hwf : r.WF) (halive : p.alive = true) :
    (r.set l p).countP (fun kv => decide (kv.1 = l) && kv.2.alive) = 1 := by
  induction r with
  | nil => simp [Registry.set, List.countP_cons, halive]
  | cons kv rest ih =>
    obtain ⟨k, q⟩ := kv
    obtain ⟨hk, hrest⟩ := Registry.WF_cons hwf
    by_cases hkl : k = l
    · subst hkl
      have hzero : rest.countP (fun kv => decide (kv.1 = k) && kv.2.alive) = 0 := by
        rw [List.countP_eq_zero]
        intro kv hm
        have hne : kv.1 ≠ k := by
          intro hh
          apply hk
          rw [← hh]
          exact List.mem_map_of_mem Prod.fst hm
        simp [hne]
      simp [Registry.set, List.countP_cons, halive, hzero]
    · have hfalse : (fun kv : Label × Proc => decide (kv.1 = l) && kv.2.alive) (k, q) = false := by
        simp [hkl]
      simp [Registry.set, hkl, List.countP_cons, hfalse, ih hrest]

/-! ### Characterization of `start_instance` -/

/-- The three outcomes of the post-check part of `start_instance`:
resolution failure, OS spawn failure, success. -/
theorem start_spawn_cases (env : Env) (r : Registry) (label : Label)
    (bp an : String) (port : Nat) (extra : List String) :
    (∃ c, resolve_binary env bp = .error c ∧
       start_spawn env r label bp an port extra = ⟨.error (.notFound c), r, []⟩)
  ∨ (∃ rb, resolve_binary env bp = .ok rb ∧
       env.spawn ([rb, "-n", an, "-p", toString port, "-vsync", "no"] ++ extra) = none ∧
       start_spawn env r label bp an port extra = ⟨.error .spawnFailure, r, []⟩)
  ∨ (∃ rb proc, resolve_binary env bp = .ok rb ∧
       env.spawn ([rb, "-n", an, "-p", toString port, "-vsync", "no"] ++ extra) = some proc ∧
       start_spawn env r label bp an port extra =
         ⟨.ok proc.pid, r.set label proc,
          [([rb, "-n", an, "-p", toString port, "-vsync", "no"] ++ extra, proc)]⟩) := by
  unfold start_spawn
  cases hres : resolve_binary env bp with
  | error c => exact .inl ⟨c, rfl, rfl⟩
  | ok rb =>
    cases hspawn : env.spawn ([rb, "-n", an, "-p", toString port, "-vsync", "no"] ++ extra) with
    | none =>
      refine .inr (.inl ⟨rb, rfl, hspawn, ?_⟩)
      simp only [List.cons_append, List.nil_append] at hspawn
      simp [hspawn]
    | some proc =>
      refine .inr (.inr ⟨rb, proc, rfl, hspawn, ?_⟩)
      simp only [List.cons_append, List.nil_append] at hspawn
      simp [hspawn]

/-- The post-check part of `start_instance` never reports
"already running". -/
theorem start_spawn_res_not_already (env : Env) (r : Registry) (label : Label)
    (bp an : String) (port : Nat) (extra : List String) (l' : Label) (pid : Nat) :
    (start_spawn env r label bp an port extra).res ≠ .error (.alreadyRunning l' pid) := by
  rcases start_spawn_cases env r label bp an port extra with
    ⟨c, _, heq⟩ | ⟨rb, _, _, heq⟩ | ⟨rb, proc, _, _, heq⟩ <;> simp [heq]

/-- When the registry holds no live entry for the label, `start_instance`
is the post-check part. -/
theorem start_instance_no_live (env : Env) (r : Registry) (label : Label)
    (bp an : String) (port : Nat) (extra : List String)
    (h : ∀ p, r.get label = some p → p.alive = false) :
    start_instance env r label bp an port extra =
      start_spawn env r label bp an port extra := by
  unfold start_instance
  cases hg : r.get label with
  | none => rfl
  | some p => simp [h p hg]

/-- When the registry holds a live entry for the label, `start_instance`
raises the already-running error and changes nothing. -/
theorem start_instance_live (env : Env) (r : Registry) (label : Label)
    (bp an : String) (port : Nat) (extra : List String) (p : Proc)
    (hg : r.get label = some p) (ha : p.alive = true) :
    start_instance env r label bp an port extra =
      ⟨.error (.alreadyRunning label p.pid), r, []⟩ := by
  unfold start_instance
  simp [hg, ha]

/-! ### Concrete fixtures used by the witnesses and counterexamples -/

/-- A healthy spawned process: alive, exits on `terminate()`. -/
def sampleProc : Proc := ⟨42, true, true, true⟩

/-- An OS environment with `uxplay` installed at `/usr/bin/uxplay` and a
standalone executable at `/opt/tool`; every spawn yields `sampleProc`. -/
def sampleEnv : Env where
  isfile := fun s => s == "/usr/bin/uxplay" || s == "/opt/tool"
  access_x := fun s => s == "/usr/bin/uxplay" || s == "/opt/tool"
  expanduser := id
  pathDirs := ["/sbin", "/usr/bin"]
  spawn := fun _ => some ⟨42, true, true, true⟩

/-- A process that is alive but survives both the post-`terminate()` and
the post-`kill()` waits. -/
def stuckProc : Proc := ⟨7, true, false, false⟩

/-- A process that has already exited on its own. -/
def deadProc : Proc := ⟨5, false, false, false⟩

/-- A live process that exits promptly on `terminate()`. -/
def niceProc : Proc := ⟨9, true, true, true⟩

/-! ### Claim theorems -/

/-- C1: `start_instance` fails with the already-running error exactly
when, at the moment of the call, an entry for the label exists and its
process is still alive as re-checked against the OS (a present entry
whose process has exited does not cause the failure); moreover, after a
successful start whose process is still alive, a second start for the
same label fails with the already-running error carrying that process's
pid, and the registry holds exactly one live entry for the label. -/
theorem start_already_running_iff (env : Env) (r : Registry) (label : Label)
    (bp an : String) (port : Nat) (extra : List String) :
    ((∀ p, r.get label = some p → p.alive = true →
        (start_instance env r label bp an port extra).res =
          .error (.alreadyRunning label p.pid))
     ∧ (∀ l' pid,
         (start_instance env r label bp an port extra).res =
           .error (.alreadyRunning l' pid) →
         ∃ p, r.get label = some p ∧ p.alive = true ∧ l' = label ∧ pid = p.pid))
    ∧ (r.WF →
       ∀ pid, (start_instance env r label bp an port extra).res = .ok pid →
       ∀ p1, (start_instance env r label bp an port extra).reg.get label = some p1 →
         p1.alive = true →
         ((∀ (env2 : Env) bp2 an2 port2 extra2,
            (start_instance env2 (start_instance env r label bp an port extra).reg
               label bp2 an2 port2 extra2).res =
              .error (.alreadyRunning label p1.pid))
          ∧ (start_instance env r label bp an port extra).reg.countP
              (fun kv => decide (kv.1 = label) && kv.2.alive) = 1)) := by
  refine ⟨⟨?_, ?_⟩, ?_⟩
  · intro p hg ha
    rw [start_instance_live env r label bp an port extra p hg ha]
  · intro l' pid h
    cases hg : r.get label with
    | none =>
      rw [start_instance_no_live env r label bp an port extra
        (by intro p hp; rw [hg] at hp; cases hp)] at h
      exact absurd h (start_spawn_res_not_already env r label bp an port extra l' pid)
    | some p =>
      by_cases ha : p.alive = true
      · rw [start_instance_live env r label bp an port extra p hg ha] at h
        simp only [StartResult.res] at h
        injection h with h1
        injection h1 with h2 h3
        exact ⟨p, rfl, ha, h2.symm, h3.symm⟩
      · rw [start_instance_no_live env r label bp an port extra
          (by intro q hq; rw [hg] at hq; injection hq with hq1; rw [← hq1]
              simpa using ha)] at h
        exact absurd h (start_spawn_res_not_already env r label bp an port extra l' pid)
  · intro hwf pid hok p1 hp1 halive
    have hred : start_instance env r label bp an port extra =
        start_spawn env r label bp an port extra := by
      cases hg : r.get label with
      | none =>
        exact start_instance_no_live env r label bp an port extra
          (by intro p hp; rw [hg] at hp; cases hp)
      | some p =>
        by_cases ha : p.alive = true
        · rw [start_instance_live env r label bp an port extra p hg ha] at hok
          simp at hok
        · exact start_instance_no_live env r label bp an port extra
            (by intro q hq; rw [hg] at hq; injection hq with hq1; rw [← hq1]
                simpa using ha)
    rcases start_spawn_cases env r label bp an port extra with
      ⟨c, _, heq⟩ | ⟨rb, _, _, heq⟩ | ⟨rb, proc, hres, hspawn, heq⟩
    · rw [hred, heq] at hok; simp at hok
    · rw [hred, heq] at hok; simp at hok
    · rw [hred, heq] at hp1 ⊢
      simp only [StartResult.reg] at hp1 ⊢
      rw [Registry.get_set_self] at hp1
      injection hp1 with hp1e
      constructor
      · intro env2 bp2 an2 port2 extra2
        rw [start_instance_live env2 (r.set label proc) label bp2 an2 port2 extra2 p1
          (by rw [Registry.get_set_self, hp1e]) halive]
      · rw [← hp1e] at halive
        exact Registry.countP_set_alive r label proc hwf halive

/-- C1 witness: starting `"ipad"` twice on `sampleEnv` from the empty
registry yields the already-running error with pid 42 on the second
call, and the registry holds exactly one live `"ipad"` entry. -/
theorem start_already_running_iff_witness :
    Registry.WF ([] : Registry) ∧
    (start_instance sampleEnv [] "ipad" "uxplay" "iPadMirror" 7000 []).res = .ok 42 ∧
    (start_instance sampleEnv
       ((start_instance sampleEnv [] "ipad" "uxplay" "iPadMirror" 7000 []).reg)
       "ipad" "uxplay" "iPadMirror" 7000 []).res = .error (.alreadyRunning "ipad" 42) ∧
    (start_instance sampleEnv [] "ipad" "uxplay" "iPadMirror" 7000 []).reg.countP
       (fun kv => decide (kv.1 = "ipad") && kv.2.alive) = 1 := by
  have h := (start_already_running_iff sampleEnv [] "ipad" "uxplay" "iPadMirror" 7000 []).2
      (by decide) 42 (by decide) sampleProc (by decide) (by decide)
  exact ⟨by decide, by decide,
    by simpa using h.1 sampleEnv "uxplay" "iPadMirror" 7000 [], by simpa using h.2⟩

/-- C2: a successful `start_instance` spawns exactly one process, from
the argument vector `[resolvedExecutable, "-n", airplayName, "-p",
decimal basePort, "-vsync", "no"] ++ extraArgs` with nothing else
inserted, records its handle under the label, and returns its pid. -/
theorem start_cmd_vector (env : Env) (r : Registry) (label : Label)
    (bp an : String) (port : Nat) (extra : List String) (rb : String) (proc : Proc)
    (hres : resolve_binary env bp = .ok rb)
    (hspawn : env.spawn ([rb, "-n", an, "-p", toString port, "-vsync", "no"] ++ extra)
      = some proc)
    (hno : ∀ p, r.get label = some p → p.alive = false) :
    start_instance env r label bp an port extra =
      ⟨.ok proc.pid, r.set label proc,
       [([rb, "-n", an, "-p", toString port, "-vsync", "no"] ++ extra, proc)]⟩ := by
  rw [start_instance_no_live env r label bp an port extra hno]
  unfold start_spawn
  rw [hres]
  simp only [List.cons_append, List.nil_append] at hspawn ⊢
  simp [hspawn]

/-- C2 witness: `start("ipad", "uxplay", "iPadMirror", 7000)` on
`sampleEnv` spawns the child with argument vector exactly
`["/usr/bin/uxplay", "-n", "iPadMirror", "-p", "7000", "-vsync", "no"]`. -/
theorem start_cmd_vector_witness :
    resolve_binary sampleEnv "uxplay" = .ok "/usr/bin/uxplay" ∧
    start_instance sampleEnv [] "ipad" "uxplay" "iPadMirror" 7000 [] =
      ⟨.ok 42, [("ipad", sampleProc)],
       [(["/usr/bin/uxplay", "-n", "iPadMirror", "-p", "7000", "-vsync", "no"],
         sampleProc)]⟩ := by
  have h := start_cmd_vector sampleEnv [] "ipad" "uxplay" "iPadMirror" 7000 []
      "/usr/bin/uxplay" sampleProc (by decide) (by decide)
      (by intro p hp; simp [Registry.get] at hp)
  exact ⟨by decide, by simpa using h⟩

/-! ### Branch lemmas for `stop_instance` -/

theorem stop_instance_none (r : Registry) (label : Label)
    (hg : r.get label = none) : stop_instance r label = (.ok false, r) := by
  unfold stop_instance
  rw [hg]

theorem stop_instance_dead (r : Registry) (label : Label) (p : Proc)
    (hg : r.get label = some p) (ha : p.alive = false) :
    stop_instance r label = (.ok false, r.pop label) := by
  unfold stop_instance
  rw [hg]
  simp [ha]

theorem stop_instance_term (r : Registry) (label : Label) (p : Proc)
    (hg : r.get label = some p) (ha : p.alive = true) (ht : p.termExits = true) :
    stop_instance r label = (.ok true, r.pop label) := by
  unfold stop_instance
  rw [hg]
  simp [ha, ht]

theorem stop_instance_kill (r : Registry) (label : Label) (p : Proc)
    (hg : r.get label = some p) (ha : p.alive = true) (ht : p.termExits = false)
    (hk : p.killExits = true) :
    stop_instance r label = (.ok true, r.pop label) := by
  unfold stop_instance
  rw [hg]
  simp [ha, ht, hk]

theorem stop_instance_stuck (r : Registry) (label : Label) (p : Proc)
    (hg : r.get label = some p) (ha : p.alive = true) (ht : p.termExits = false)
    (hk : p.killExits = false) :
    stop_instance r label = (.error .timeoutExpired, r.pop label) := by
  unfold stop_instance
  rw [hg]
  simp [ha, ht, hk]

/-- C3 (amended): on a live entry, `stop_instance` returns `true` both
when the process exits within the timeout after `terminate()` and when
that wait times out but the post-`kill()` wait succeeds; when even the
post-`kill()` wait times out, the `TimeoutExpired` of the second
`wait` propagates instead of a `true` return — in every one of these
branches the entry is removed. -/
theorem stop_live_branches (r : Registry) (label : Label) (p : Proc)
    (hg : r.get label = some p) (ha : p.alive = true) :
    ((p.termExits = true ∨ p.killExits = true) →
       stop_instance r label = (.ok true, r.pop label))
    ∧ (p.termExits = false → p.killExits = false →
       stop_instance r label = (.error .timeoutExpired, r.pop label)) := by
  constructor
  · intro hor
    by_cases ht : p.termExits = true
    · exact stop_instance_term r label p hg ha ht
    · have hk : p.killExits = true := by
        rcases hor with h | h
        · exact absurd h ht
        · exact h
      exact stop_instance_kill r label p hg ha (by simpa using ht) hk
  · intro ht hk
    exact stop_instance_stuck r label p hg ha ht hk

/-- C3 counterexample: a live entry whose process survives both the
post-`terminate()` and the post-`kill()` waits makes `stop_instance`
raise `TimeoutExpired` rather than return `true` (the claim says stop
never raises a hard error on a live entry), though the entry is still
removed. -/
theorem stop_live_branches_cex :
    Registry.get [("ipad", stuckProc)] "ipad" = some stuckProc ∧
    stuckProc.alive = true ∧
    (stop_instance [("ipad", stuckProc)] "ipad").1 ≠ .ok true ∧
    stop_instance [("ipad", stuckProc)] "ipad" = (.error .timeoutExpired, []) := by
  decide

/-- C3 witness: stopping a live, well-behaved process returns `true`
and empties the registry. -/
theorem stop_live_branches_witness :
    stop_instance [("x", niceProc)] "x" = (.ok true, []) := by
  have h := (stop_live_branches [("x", niceProc)] "x" niceProc (by decide) (by decide)).1
      (.inl (by decide))
  exact h

/-- Every error outcome of the post-check part of `start_instance`
leaves the registry unchanged and spawns nothing. -/
theorem start_spawn_error_frame (env : Env) (r : Registry) (label : Label)
    (bp an : String) (port : Nat) (extra : List String) (e : StartError)
    (h : (start_spawn env r label bp an port extra).res = .error e) :
    (start_spawn env r label bp an port extra).reg = r ∧
    (start_spawn env r label bp an port extra).spawned = [] := by
  rcases start_spawn_cases env r label bp an port extra with
    ⟨c, _, heq⟩ | ⟨rb, _, _, heq⟩ | ⟨rb, proc, _, _, heq⟩ <;> rw [heq] at h ⊢
  · exact ⟨rfl, rfl⟩
  · exact ⟨rfl, rfl⟩
  · simp at h

/-- C4: whenever `start_instance` fails — already running, binary not
found, or OS spawn failure — no process is created and the registry
after the call is exactly the registry before it. -/
theorem start_error_atomic (env : Env) (r : Registry) (label : Label)
    (bp an : String) (port : Nat) (extra : List String) (e : StartError)
    (h : (start_instance env r label bp an port extra).res = .error e) :
    (start_instance env r label bp an port extra).reg = r ∧
    (start_instance env r label bp an port extra).spawned = [] := by
  cases hg : r.get label with
  | some p =>
    by_cases ha : p.alive = true
    · rw [start_instance_live env r label bp an port extra p hg ha]
      exact ⟨rfl, rfl⟩
    · rw [start_instance_no_live env r label bp an port extra
        (by intro q hq; rw [hg] at hq; injection hq with hq1; rw [← hq1]
            simpa using ha)] at h ⊢
      exact start_spawn_error_frame env r label bp an port extra e h
  | none =>
    rw [start_instance_no_live env r label bp an port extra
      (by intro q hq; rw [hg] at hq; cases hq)] at h ⊢
    exact start_spawn_error_frame env r label bp an port extra e h

/-- An OS environment with no executables anywhere and a failing
spawn. -/
def emptyEnv : Env where
  isfile := fun _ => false
  access_x := fun _ => false
  expanduser := id
  pathDirs := []
  spawn := fun _ => none

/-- C4 witness: a start that fails with "not found" leaves the registry
exactly as it was and spawns nothing. -/
theorem start_error_atomic_witness :
    (start_instance emptyEnv [("x", niceProc)] "ipad" "nosuch" "A" 7000 []).res
      = .error (.notFound "nosuch") ∧
    (start_instance emptyEnv [("x", niceProc)] "ipad" "nosuch" "A" 7000 []).reg
      = [("x", niceProc)] ∧
    (start_instance emptyEnv [("x", niceProc)] "ipad" "nosuch" "A" 7000 []).spawned = [] := by
  have h := start_error_atomic emptyEnv [("x", niceProc)] "ipad" "nosuch" "A" 7000 []
      (.notFound "nosuch") (by decide)
  exact ⟨by decide, h.1, h.2⟩

/-- C5: stopping a label whose entry holds a live process leaves no
entry for that label, irrespective of which termination branch ran —
including the branch where the post-`kill()` wait raises. -/
theorem stop_no_dangling_entry (r : Registry) (label : Label) (p : Proc)
    (hg : r.get label = some p) (ha : p.alive = true) :
    ((stop_instance r label).2).get label = none := by
  have hpop : (stop_instance r label).2 = r.pop label := by
    by_cases ht : p.termExits = true
    · rw [stop_instance_term r label p hg ha ht]
    · by_cases hk : p.killExits = true
      · rw [stop_instance_kill r label p hg ha (by simpa using ht) hk]
      · rw [stop_instance_stuck r label p hg ha (by simpa using ht) (by simpa using hk)]
  rw [hpop]
  exact Registry.get_pop_self r label

/-- C5 witness: after stopping a live (even unkillable) process, its
label is gone from the registry. -/
theorem stop_no_dangling_entry_witness :
    ((stop_instance [("x", niceProc)] "x").2).get "x" = none ∧
    ((stop_instance [("y", stuckProc)] "y").2).get "y" = none := by
  exact ⟨stop_no_dangling_entry [("x", niceProc)] "x" niceProc (by decide) (by decide),
         stop_no_dangling_entry [("y", stuckProc)] "y" stuckProc (by decide) (by decide)⟩

/-- C6 (amended): a stale entry — present but its process has exited —
is removed by `stop_instance`, which returns `false`; the liveness
reads `is_running` and `get_pid` report the exit (`false` / `none`) but
leave the registry, including the stale entry, unchanged. -/
theorem stale_entry_removal (r : Registry) (label : Label) (p : Proc)
    (hg : r.get label = some p) (ha : p.alive = false) :
    stop_instance r label = (.ok false, r.pop label)
    ∧ (r.pop label).get label = none
    ∧ is_running r label = (false, r)
    ∧ get_pid r label = (none, r) := by
  refine ⟨stop_instance_dead r label p hg ha, Registry.get_pop_self r label, ?_, ?_⟩
  · unfold is_running
    rw [hg]
    simp [ha]
  · unfold get_pid
    rw [hg]
    simp [ha]

/-- C6 counterexample: `is_running` and `get_pid` observe that the
process of `"ipad"` has exited, yet the stale entry is still in the
registry after the call — the claim that every operation observing the
exit leaves no entry behind is false for the liveness reads. -/
theorem stale_entry_removal_cex :
    deadProc.alive = false ∧
    (is_running [("ipad", deadProc)] "ipad").1 = false ∧
    (is_running [("ipad", deadProc)] "ipad").2.get "ipad" = some deadProc ∧
    (get_pid [("ipad", deadProc)] "ipad").1 = none ∧
    (get_pid [("ipad", deadProc)] "ipad").2.get "ipad" = some deadProc := by
  decide

/-- C6 witness: on a stale entry, stop removes it and returns `false`,
while the liveness reads report the exit and change nothing. -/
theorem stale_entry_removal_witness :
    stop_instance [("x", deadProc)] "x" = (.ok false, []) ∧
    is_running [("x", deadProc)] "x" = (false, [("x", deadProc)]) ∧
    get_pid [("x", deadProc)] "x" = (none, [("x", deadProc)]) := by
  have h := stale_entry_removal [("x", deadProc)] "x" deadProc (by decide) (by decide)
  exact ⟨by simpa using h.1, h.2.2.1, h.2.2.2⟩

/-! ### `stop_all` -/

/-- One step of the `stop_all` loop. -/
theorem stop_all_loop_cons (l : Label) (ks : List Label) (acc : Nat) (r : Registry) :
    stop_all_loop (l :: ks) acc r =
      match stop_instance r l with
      | (.ok true, r') => stop_all_loop ks (acc + 1) r'
      | (.ok false, r') => stop_all_loop ks acc r'
      | (.error e, r') => (.error e, r') := rfl

/-- Loop invariant of `stop_all`: over a well-formed registry in which
no live process survives both waits, the loop adds one per live entry
and drains the registry. -/
theorem stop_all_loop_spec (r : Registry) : ∀ acc : Nat, r.WF →
    (∀ kv ∈ r, (kv : Label × Proc).2.alive = true →
       (kv.2.termExits = true ∨ kv.2.killExits = true)) →
    stop_all_loop r.keys acc r = (.ok (acc + r.countP (fun kv => kv.2.alive)), []) := by
  induction r with
  | nil =>
    intro acc _ _
    simp [Registry.keys, stop_all_loop]
  | cons kv rest ih =>
    obtain ⟨l, p⟩ := kv
    intro acc hwf hbeh
    obtain ⟨hnot, hrest⟩ := Registry.WF_cons hwf
    have hget : Registry.get ((l, p) :: rest) l = some p := by simp [Registry.get]
    have hpoprest : Registry.pop ((l, p) :: rest) l = rest := by
      simp [Registry.pop, Registry.pop_of_not_mem rest l hnot]
    have hbehrest : ∀ kv ∈ rest, (kv : Label × Proc).2.alive = true →
        (kv.2.termExits = true ∨ kv.2.killExits = true) :=
      fun kv hm => hbeh kv (List.mem_cons_of_mem _ hm)
    have hkeys : Registry.keys ((l, p) :: rest) = l :: Registry.keys rest := rfl
    rw [hkeys, stop_all_loop_cons]
    by_cases ha : p.alive = true
    · have hstop : stop_instance ((l, p) :: rest) l = (.ok true, rest) := by
        rcases hbeh (l, p) (List.mem_cons_self _ _) ha with ht | hk
        · rw [stop_instance_term _ l p hget ha ht, hpoprest]
        · by_cases ht : p.termExits = true
          · rw [stop_instance_term _ l p hget ha ht, hpoprest]
          · rw [stop_instance_kill _ l p hget ha (by simpa using ht) hk, hpoprest]
      rw [hstop]
      simp only []
      rw [ih (acc + 1) hrest hbehrest]
      have hc : List.countP (fun kv => kv.2.alive) ((l, p) :: rest)
          = List.countP (fun kv => kv.2.alive) rest + 1 := by
        simp [List.countP_cons, ha]
      rw [hc]
      have hn : acc + 1 + List.countP (fun kv => kv.2.alive) rest
          = acc + (List.countP (fun kv => kv.2.alive) rest + 1) := by omega
      rw [hn]
    · have hstop : stop_instance ((l, p) :: rest) l = (.ok false, rest) := by
        rw [stop_instance_dead _ l p hget (by simpa using ha), hpoprest]
      rw [hstop]
      simp only []
      rw [ih acc hrest hbehrest]
      have hc : List.countP (fun kv => kv.2.alive) ((l, p) :: rest)
          = List.countP (fun kv => kv.2.alive) rest := by
        simp [List.countP_cons, ha]
      rw [hc]

/-- C7 (amended): `stop_all` snapshots the labels and stops each one;
"nothing running" / "already exited" (`false`) outcomes never abort the
loop, and when no stop raises — every live process exits within the
timeout after `terminate()` or after `kill()` — it returns exactly the
number of labels whose stop returned `true` (the live entries) and
leaves the registry empty.  If one stop raises the post-`kill()`
`TimeoutExpired`, the exception propagates out of `stop_all` and the
remaining snapshotted labels are not processed. -/
theorem stop_all_count (r : Registry) (hwf : r.WF)
    (hbeh : ∀ kv ∈ r, (kv : Label × Proc).2.alive = true →
       (kv.2.termExits = true ∨ kv.2.killExits = true)) :
    stop_all r = (.ok (r.countP (fun kv => kv.2.alive)), []) := by
  unfold stop_all
  simpa using stop_all_loop_spec r 0 hwf hbeh

/-- C7 counterexample: when the first label's process survives both
waits, `stop_instance` raises, `stop_all` propagates the exception
instead of returning a count, and the second label — live and
well-behaved — is never processed: its entry survives.  This refutes
"a failure for one label never aborts processing of the remaining
labels". -/
theorem stop_all_count_cex :
    niceProc.alive = true ∧
    stop_all [("a", stuckProc), ("b", niceProc)]
      = (.error .timeoutExpired, [("b", niceProc)]) := by
  decide

/-- C7 witness: a registry with one dead, one live and one absent-style
entry is drained with count 1 when every stop returns. -/
theorem stop_all_count_witness :
    Registry.WF [("a", deadProc), ("b", niceProc)] ∧
    stop_all [("a", deadProc), ("b", niceProc)] = (.ok 1, []) := by
  have h := stop_all_count [("a", deadProc), ("b", niceProc)] (by decide)
      (by decide)
  exact ⟨by decide, by simpa using h⟩

/-! ### Resolver claims -/

/-- C8 (amended): the default to the literal `"uxplay"` is applied
before stripping and only to the empty candidate: resolving the empty
string proceeds exactly as resolving `"uxplay"`, while a non-empty
whitespace-only candidate strips to the empty string and is resolved as
the empty name, not as `"uxplay"`. -/
theorem resolve_default_empty_only :
    (∀ env : Env, resolve_binary env "" = resolve_binary env "uxplay")
    ∧ (∀ (env : Env) (s : String), s ≠ "" → py_strip s = "" →
        normalize_candidate env s = env.expanduser "") := by
  constructor
  · intro env
    unfold resolve_binary normalize_candidate
    have h1 : (if ("" : String) = "" then "uxplay" else "") = "uxplay" := by simp
    have h2 : (if ("uxplay" : String) = "" then "uxplay" else "uxplay") = "uxplay" := by
      simp
    rw [h1, h2]
  · intro env s hne hstrip
    unfold normalize_candidate
    rw [if_neg hne, hstrip]

/-- C8 counterexample: on an environment where `"uxplay"` resolves, the
whitespace-only candidate `" "` does not behave as if `"uxplay"` had
been passed — `(binary_path or "uxplay")` defaults before `.strip()`,
so `" "` strips to `""` and resolution fails with `NotFound("")`. -/
theorem resolve_default_empty_only_cex :
    resolve_binary sampleEnv " " = .error "" ∧
    resolve_binary sampleEnv "uxplay" = .ok "/usr/bin/uxplay" ∧
    resolve_binary sampleEnv " " ≠ resolve_binary sampleEnv "uxplay" := by
  decide

/-- C8 witness: the empty candidate resolves exactly as `"uxplay"`, and
`" "` normalizes to the expansion of the empty string. -/
theorem resolve_default_empty_only_witness :
    resolve_binary sampleEnv "" = resolve_binary sampleEnv "uxplay" ∧
    (" " : String) ≠ "" ∧ py_strip " " = "" ∧
    normalize_candidate sampleEnv " " = sampleEnv.expanduser "" := by
  exact ⟨resolve_default_empty_only.1 sampleEnv, by decide, by decide,
    resolve_default_empty_only.2 sampleEnv " " (by decide) (by decide)⟩

/-- C9: the resolver's decision rule on the normalized candidate: with
a path separator, the exact candidate is returned unchanged when it is
an existing executable regular file and `NotFound(candidate)` is raised
otherwise; without one, the first `PATH` directory whose joined path is
an existing executable regular file is returned, and
`NotFound(candidate)` is raised when there is none. -/
theorem resolve_decision_rule (env : Env) (s : String) :
    (contains_sep (normalize_candidate env s) = true →
       ((env.isfile (normalize_candidate env s)
           && env.access_x (normalize_candidate env s)) = true →
          resolve_binary env s = .ok (normalize_candidate env s))
       ∧ ((env.isfile (normalize_candidate env s)
           && env.access_x (normalize_candidate env s)) = false →
          resolve_binary env s = .error (normalize_candidate env s)))
    ∧ (contains_sep (normalize_candidate env s) = false →
       (∀ pre d post, env.pathDirs = pre ++ d :: post →
          (∀ d2 ∈ pre, (env.isfile (d2 ++ "/" ++ normalize_candidate env s)
             && env.access_x (d2 ++ "/" ++ normalize_candidate env s)) = false) →
          (env.isfile (d ++ "/" ++ normalize_candidate env s)
             && env.access_x (d ++ "/" ++ normalize_candidate env s)) = true →
          resolve_binary env s = .ok (d ++ "/" ++ normalize_candidate env s))
       ∧ ((∀ d ∈ env.pathDirs, (env.isfile (d ++ "/" ++ normalize_candidate env s)
             && env.access_x (d ++ "/" ++ normalize_candidate env s)) = false) →
          resolve_binary env s = .error (normalize_candidate env s))) := by
  unfold resolve_binary
  generalize normalize_candidate env s = c
  constructor
  · intro hsep
    constructor
    · intro hexec
      unfold resolve_candidate
      simp [hsep, hexec]
    · intro hexec
      unfold resolve_candidate
      simp [hsep, hexec]
  · intro hsep
    constructor
    · intro pre d post hpath hpre hd
      have hwhich : which env c = some (d ++ "/" ++ c) := by
        unfold which
        rw [hpath, List.map_append, List.map_cons, List.find?_append]
        have hnone : List.find? (fun p => env.isfile p && env.access_x p)
            (List.map (fun d2 => d2 ++ "/" ++ c) pre) = none := by
          rw [List.find?_eq_none]
          intro x hx
          obtain ⟨d2, hd2, rfl⟩ := List.mem_map.mp hx
          simp [hpre d2 hd2]
        rw [hnone, @List.find?_cons_of_pos _ (fun p => env.isfile p && env.access_x p)
          (d ++ "/" ++ c) (List.map (fun d2 => d2 ++ "/" ++ c) post) hd]
        rfl
      unfold resolve_candidate
      rw [hwhich]
      simp [hsep, hd]
    · intro hall
      have hwhich : which env c = none := by
        unfold which
        rw [List.find?_eq_none]
        intro x hx
        obtain ⟨d2, hd2, rfl⟩ := List.mem_map.mp hx
        simp [hall d2 hd2]
      unfold resolve_candidate
      rw [hwhich]
      simp [hsep]

/-- C9 witness: the four resolver scenarios on concrete environments —
explicit executable path returned unchanged, `PATH` search returning
the first executable match, bare name absent from `PATH`, and explicit
path to a non-executable file. -/
theorem resolve_decision_rule_witness :
    resolve_binary sampleEnv "/opt/tool" = .ok "/opt/tool" ∧
    resolve_binary sampleEnv "uxplay" = .ok "/usr/bin/uxplay" ∧
    resolve_binary emptyEnv "uxplay" = .error "uxplay" ∧
    resolve_binary sampleEnv "/opt/none" = .error "/opt/none" := by
  refine ⟨?_, ?_, ?_, ?_⟩
  · exact ((resolve_decision_rule sampleEnv "/opt/tool").1 (by decide)).1 (by decide)
  · exact ((resolve_decision_rule sampleEnv "uxplay").2 (by decide)).1
      ["/sbin"] "/usr/bin" [] (by decide) (by decide) (by decide)
  · exact ((resolve_decision_rule emptyEnv "uxplay").2 (by decide)).2 (by decide)
  · exact ((resolve_decision_rule sampleEnv "/opt/none").1 (by decide)).2 (by decide)

/-- C10: frame property — each of the four per-label operations leaves
the registry entry of every other label exactly as it was. -/
theorem ops_frame (env : Env) (r : Registry) (label other : Label)
    (bp an : String) (port : Nat) (extra : List String)
    (hne : other ≠ label) :
    Registry.get (start_instance env r label bp an port extra).reg other = r.get other
    ∧ Registry.get (stop_instance r label).2 other = r.get other
    ∧ Registry.get (is_running r label).2 other = r.get other
    ∧ Registry.get (get_pid r label).2 other = r.get other := by
  refine ⟨?_, ?_, rfl, rfl⟩
  · have hframe : ∀ hno : (∀ p, r.get label = some p → p.alive = false),
        Registry.get (start_instance env r label bp an port extra).reg other
          = r.get other := by
      intro hno
      rw [start_instance_no_live env r label bp an port extra hno]
      rcases start_spawn_cases env r label bp an port extra with
        ⟨c, _, heq⟩ | ⟨rb, _, _, heq⟩ | ⟨rb, proc, _, _, heq⟩
      · rw [heq]
      · rw [heq]
      · rw [heq]
        exact Registry.get_set_ne r label other proc hne
    cases hg : r.get label with
    | none => exact hframe (by intro p hp; rw [hg] at hp; cases hp)
    | some p =>
      by_cases ha : p.alive = true
      · rw [start_instance_live env r label bp an port extra p hg ha]
      · exact hframe (by intro q hq; rw [hg] at hq; injection hq with hq1; rw [← hq1]
                         simpa using ha)
  · cases hg : r.get label with
    | none => rw [stop_instance_none r label hg]
    | some p =>
      by_cases ha : p.alive = true
      · by_cases ht : p.termExits = true
        · rw [stop_instance_term r label p hg ha ht]
          exact Registry.get_pop_ne r label other hne
        · by_cases hk : p.killExits = true
          · rw [stop_instance_kill r label p hg ha (by simpa using ht) hk]
            exact Registry.get_pop_ne r label other hne
          · rw [stop_instance_stuck r label p hg ha (by simpa using ht) (by simpa using hk)]
            exact Registry.get_pop_ne r label other hne
      · rw [stop_instance_dead r label p hg (by simpa using ha)]
        exact Registry.get_pop_ne r label other hne

/-- C10 witness: starting or stopping `"x"` leaves the entry of `"y"`
untouched. -/
theorem ops_frame_witness :
    ("y" : Label) ≠ "x" ∧
    Registry.get (start_instance sampleEnv [("x", niceProc), ("y", deadProc)]
       "x" "uxplay" "A" 7000 []).reg "y" = some deadProc ∧
    Registry.get (stop_instance [("x", niceProc), ("y", deadProc)] "x").2 "y"
      = some deadProc := by
  have h := ops_frame sampleEnv [("x", niceProc), ("y", deadProc)] "x" "y"
      "uxplay" "A" 7000 [] (by decide)
  exact ⟨by decide, h.1.trans (by decide), h.2.1.trans (by decide)⟩
